import Mathlib

set_option maxRecDepth 100000

/-!
Shallow embedding of the virtual-scroll strategy in src/index.ts
(class AdaptiveHeightStrategy and its private helpers).

Pixel quantities and indices are modelled as integers; item counts as
naturals.  The viewport is external state: the strategy reads a
ViewportRead snapshot and issues Cmd values for every viewport call it
makes.  The rxjs Subject piped through distinctUntilChanged is modelled
by the streamClosed / lastEmitted fields together with the delivered
list of each step: a value is delivered exactly when the subject is not
completed and the value differs from the previous delivered one.
-/

namespace CustomScroll

/-- ScrollBehavior passed through to scrollToOffset, opaque to the core. -/
inductive ScrollBehavior where
  | auto
  | instant
  | smooth
deriving DecidableEq

/-- The CDK ListRange: half-open index interval. The field endIdx models
the source field named end. -/
structure ListRange where
  start : Int
  endIdx : Int
deriving DecidableEq

/-- One viewport call issued by the strategy. -/
inductive Cmd where
  | setRenderedRange (r : ListRange)
  | setRenderedContentOffset (px : Int)
  | setTotalContentSize (px : Int)
  | scrollToOffset (px : Int) (behavior : ScrollBehavior)
deriving DecidableEq

/-- The single checked configuration error: the Error thrown by
updateItemAndBufferSize when maxBufferPx is less than minBufferPx. -/
inductive ConfigError where
  | maxBufferLessThanMinBuffer
deriving DecidableEq

/-- Snapshot of the values the attached viewport answers to
measureScrollOffset, getViewportSize, getDataLength, getRenderedRange. -/
structure ViewportRead where
  scrollOffset : Int
  viewportSize : Int
  dataLength : Int
  renderedRange : ListRange
deriving DecidableEq

/-- State of an AdaptiveHeightStrategy instance: the four configuration
fields of the class, whether a viewport is attached, whether the
scrolledIndexChange subject has been completed, and the last value the
distinctUntilChanged pipe delivered. -/
structure AdaptiveHeightStrategy (α : Type) where
  itemSizeFn : α → Int
  items : List α
  minBufferPx : Int
  maxBufferPx : Int
  attached : Bool
  streamClosed : Bool
  lastEmitted : Option Int

/-- Result of one operation: the updated strategy state, the viewport
calls made (in order), and the first-visible-index values actually
delivered on the deduplicated output stream. -/
structure StepOut (α : Type) where
  strategy : AdaptiveHeightStrategy α
  cmds : List Cmd
  delivered : List Int

/-- JavaScript Array.prototype.slice(0, k): a negative end index counts
from the end of the array, an end index beyond the length is clamped. -/
def slice0 (l : List α) (k : Int) : List α :=
  if k < 0 then l.take (k + l.length).toNat else l.take k.toNat

/-- Source _getItemSize: data.reduce((acc, curr) => itemSizeFn(curr) + acc, 0). -/
def _getItemSize (f : α → Int) (data : List α) : Int :=
  data.foldl (fun acc curr => f curr + acc) 0

/-- Source _getFirstVisibleIndex: a forEach over the items that, while
acc is not yet beyond offset, adds the item size to acc and increments
the counter, and skips the remaining items afterwards. -/
def _getFirstVisibleIndex (f : α → Int) (items : List α) (offset : Int) : Nat :=
  (items.foldl
    (fun s curr => if s.1 > offset then s else (s.1 + f curr, s.2 + 1))
    ((0 : Int), (0 : Nat))).2

/-- The pure range computation inside _updateRenderedRange: from the
viewport snapshot to the newRange committed by setRenderedRange.
Math.ceil in the source wraps values that are already integers, hence is
the identity in this integer model. -/
def computeNewRange (f : α → Int) (items : List α) (minBufferPx maxBufferPx : Int)
    (v : ViewportRead) : ListRange :=
  let scrollOffset := v.scrollOffset
  let firstVisibleIndex : Int := _getFirstVisibleIndex f items scrollOffset
  let r := v.renderedRange
  let viewportSize := v.viewportSize
  let dataLength := v.dataLength
  let startBuffer := scrollOffset - _getItemSize f (slice0 items r.start)
  if startBuffer < minBufferPx ∧ r.start ≠ 0 then
    let expandStart : Int := _getFirstVisibleIndex f items (maxBufferPx - startBuffer)
    { start := max 0 (r.start - expandStart),
      endIdx := min dataLength
        (firstVisibleIndex + (_getFirstVisibleIndex f items (viewportSize + minBufferPx) : Int)) }
  else
    let endBuffer := _getItemSize f (slice0 items r.endIdx) - (scrollOffset + viewportSize)
    if endBuffer < minBufferPx ∧ r.endIdx ≠ dataLength then
      let expandEnd : Int := _getFirstVisibleIndex f items (maxBufferPx - endBuffer)
      if 0 < expandEnd then
        { start := max 0
            (firstVisibleIndex - (_getFirstVisibleIndex f items minBufferPx : Int)),
          endIdx := min dataLength (r.endIdx + expandEnd) }
      else r
    else r

/-- Subject.next(n) as observed through distinctUntilChanged: nothing is
delivered after complete(), and a value equal to the previous delivered
one is suppressed. -/
def emitIndex (s : AdaptiveHeightStrategy α) (n : Int) :
    AdaptiveHeightStrategy α × List Int :=
  if s.streamClosed then (s, [])
  else if s.lastEmitted = some n then (s, [])
  else ({ s with lastEmitted := some n }, [n])

/-- Source _updateRenderedRange: early return without a viewport,
otherwise commit the new range, set the content offset to the cumulative
size before the new start, and push Math.floor(firstVisibleIndex). -/
def _updateRenderedRange (s : AdaptiveHeightStrategy α) (v : ViewportRead) : StepOut α :=
  if s.attached then
    let nr := computeNewRange s.itemSizeFn s.items s.minBufferPx s.maxBufferPx v
    let offset := _getItemSize s.itemSizeFn (slice0 s.items nr.start)
    let fvi : Int := _getFirstVisibleIndex s.itemSizeFn s.items v.scrollOffset
    { strategy := (emitIndex s fvi).1,
      cmds := [Cmd.setRenderedRange nr, Cmd.setRenderedContentOffset offset],
      delivered := (emitIndex s fvi).2 }
  else
    { strategy := s, cmds := [], delivered := [] }

/-- Source _updateTotalContentSize: early return without a viewport,
otherwise setTotalContentSize(_getItemSize(items)). -/
def _updateTotalContentSize (s : AdaptiveHeightStrategy α) : StepOut α :=
  if s.attached then
    { strategy := s, cmds := [Cmd.setTotalContentSize (_getItemSize s.itemSizeFn s.items)],
      delivered := [] }
  else
    { strategy := s, cmds := [], delivered := [] }

/-- Sequencing of two steps on the same strategy. -/
def StepOut.andThen (o : StepOut α) (g : AdaptiveHeightStrategy α → StepOut α) : StepOut α :=
  { strategy := (g o.strategy).strategy,
    cmds := o.cmds ++ (g o.strategy).cmds,
    delivered := o.delivered ++ (g o.strategy).delivered }

/-- Source constructor: stores the four configuration values, with no
validation; no viewport attached yet, subject open, nothing emitted. -/
def construct (f : α → Int) (items : List α) (minBufferPx maxBufferPx : Int) :
    AdaptiveHeightStrategy α :=
  { itemSizeFn := f, items := items, minBufferPx := minBufferPx,
    maxBufferPx := maxBufferPx, attached := false, streamClosed := false,
    lastEmitted := none }

/-- Source attach: store the viewport, then update total content size
and rendered range. -/
def attach (s : AdaptiveHeightStrategy α) (v : ViewportRead) : StepOut α :=
  StepOut.andThen (_updateTotalContentSize { s with attached := true })
    (fun s1 => _updateRenderedRange s1 v)

/-- Source detach: complete the subject and drop the viewport reference. -/
def detach (s : AdaptiveHeightStrategy α) : AdaptiveHeightStrategy α :=
  { s with streamClosed := true, attached := false }

/-- Source updateItemAndBufferSize: throws before mutating anything when
maxBufferPx is less than minBufferPx, otherwise replaces the four
configuration fields and recomputes total size and rendered range. -/
def updateItemAndBufferSize (s : AdaptiveHeightStrategy α) (f : α → Int) (items : List α)
    (minBufferPx maxBufferPx : Int) (v : ViewportRead) : StepOut α × Option ConfigError :=
  if maxBufferPx < minBufferPx then
    ({ strategy := s, cmds := [], delivered := [] },
      some ConfigError.maxBufferLessThanMinBuffer)
  else
    let s1 := { s with itemSizeFn := f, items := items, minBufferPx := minBufferPx,
                       maxBufferPx := maxBufferPx }
    (StepOut.andThen (_updateTotalContentSize s1) (fun s2 => _updateRenderedRange s2 v),
      none)

/-- Source onContentScrolled: recompute the rendered range only. -/
def onContentScrolled (s : AdaptiveHeightStrategy α) (v : ViewportRead) : StepOut α :=
  _updateRenderedRange s v

/-- Source onDataLengthChanged: recompute total content size, then the
rendered range. -/
def onDataLengthChanged (s : AdaptiveHeightStrategy α) (v : ViewportRead) : StepOut α :=
  StepOut.andThen (_updateTotalContentSize s) (fun s1 => _updateRenderedRange s1 v)

/-- Source onContentRendered: no-op. -/
def onContentRendered (s : AdaptiveHeightStrategy α) : StepOut α :=
  { strategy := s, cmds := [], delivered := [] }

/-- Source onRenderedOffsetChanged: no-op. -/
def onRenderedOffsetChanged (s : AdaptiveHeightStrategy α) : StepOut α :=
  { strategy := s, cmds := [], delivered := [] }

/-- Source scrollToIndex: when attached, scrollToOffset of the cumulative
size of the items before the index, passing the behavior through. -/
def scrollToIndex (s : AdaptiveHeightStrategy α) (index : Int) (behavior : ScrollBehavior) :
    StepOut α :=
  if s.attached then
    { strategy := s,
      cmds := [Cmd.scrollToOffset (_getItemSize s.itemSizeFn (slice0 s.items index)) behavior],
      delivered := [] }
  else
    { strategy := s, cmds := [], delivered := [] }

/-! Spec-side definitions, used to compare the source functions with the
wording of the specification, and concrete inputs used by the theorems. -/

/-- Reference walk of the spec for firstIndexAtOrBeyond: accumulate item
sizes while the accumulator is at most the offset and stop as soon as it
exceeds it, returning the count of items consumed. -/
def referenceWalk (f : α → Int) (off : Int) : Int → List α → Nat
  | _, [] => 0
  | acc, x :: xs => if acc > off then 0 else referenceWalk f off (acc + f x) xs + 1

/-- Spec cumulativeSize: the sum of the sizes of the first k items. -/
def cumulativeSize (f : α → Int) (items : List α) (k : Int) : Int :=
  ((items.take k.toNat).map f).sum

/-- Range update following the words of claim C1: the two-branch
algorithm stated over cumulativeSize and firstIndexAtOrBeyond (the
reference walk). -/
def specNewRange (f : α → Int) (items : List α) (minBufferPx maxBufferPx : Int)
    (v : ViewportRead) : ListRange :=
  let firstVisibleIndex : Int := referenceWalk f v.scrollOffset 0 items
  let startBuffer := v.scrollOffset - cumulativeSize f items v.renderedRange.start
  if startBuffer < minBufferPx ∧ v.renderedRange.start ≠ 0 then
    { start := max 0 (v.renderedRange.start -
        (referenceWalk f (maxBufferPx - startBuffer) 0 items : Int)),
      endIdx := min v.dataLength
        (firstVisibleIndex + (referenceWalk f (v.viewportSize + minBufferPx) 0 items : Int)) }
  else
    let endBuffer := cumulativeSize f items v.renderedRange.endIdx -
      (v.scrollOffset + v.viewportSize)
    let expandEnd : Int := referenceWalk f (maxBufferPx - endBuffer) 0 items
    if endBuffer < minBufferPx ∧ v.renderedRange.endIdx ≠ v.dataLength ∧ 0 < expandEnd then
      { start := max 0 (firstVisibleIndex - (referenceWalk f minBufferPx 0 items : Int)),
        endIdx := min v.dataLength (v.renderedRange.endIdx + expandEnd) }
    else v.renderedRange

/-- Conditions under which the range update takes no expansion branch:
the start branch does not fire, and whenever the end-buffer condition
holds the computed expansion count is not positive. -/
abbrev noChangeBranch (f : α → Int) (items : List α) (minBufferPx maxBufferPx : Int)
    (v : ViewportRead) : Prop :=
  ¬(v.scrollOffset - _getItemSize f (slice0 items v.renderedRange.start) < minBufferPx ∧
      v.renderedRange.start ≠ 0) ∧
  ((_getItemSize f (slice0 items v.renderedRange.endIdx) - (v.scrollOffset + v.viewportSize)
        < minBufferPx ∧ v.renderedRange.endIdx ≠ v.dataLength) →
    ¬(0 < (_getFirstVisibleIndex f items
        (maxBufferPx - (_getItemSize f (slice0 items v.renderedRange.endIdx) -
          (v.scrollOffset + v.viewportSize))) : Int)))

/-- Item sizes exhibiting the invariant violation of claim C2: one tall
leading item followed by nine short ones, identity size function. -/
def c2SizeList : List Int := [1000, 100, 100, 100, 100, 100, 100, 100, 100, 100]

/-- Attached strategy over c2SizeList with minBufferPx 100, maxBufferPx 200. -/
def c2Strategy : AdaptiveHeightStrategy Int :=
  { itemSizeFn := fun x => x, items := c2SizeList, minBufferPx := 100, maxBufferPx := 200,
    attached := true, streamClosed := false, lastEmitted := none }

/-- Viewport snapshot for claim C2: scroll offset 900, viewport 500,
ten items, prior rendered range {5, 6} satisfying the range invariant. -/
def c2View : ViewportRead :=
  { scrollOffset := 900, viewportSize := 500, dataLength := 10,
    renderedRange := { start := 5, endIdx := 6 } }

/-- Items of the spec scenario: 50 entries, each of size 20. -/
def uniformItems : List Unit := List.replicate 50 ()

/-- Size function of the spec scenario: every item is 20 pixels. -/
def uniformSizeFn : Unit → Int := fun _ => 20

/-- Attached strategy of the spec scenario: minBuffer 100, maxBuffer 200. -/
def scenarioStrategy : AdaptiveHeightStrategy Unit :=
  { itemSizeFn := uniformSizeFn, items := uniformItems, minBufferPx := 100,
    maxBufferPx := 200, attached := true, streamClosed := false, lastEmitted := none }

/-- Viewport snapshot of the spec scenario: scroll offset 0, viewport
500, 50 items, initial rendered range {0, 0}. -/
def scenarioView : ViewportRead :=
  { scrollOffset := 0, viewportSize := 500, dataLength := 50,
    renderedRange := { start := 0, endIdx := 0 } }

/-- Item sizes for the claim C8 counterexample: one tall leading item
followed by nine ten-pixel items. -/
def c8SizeList : List Int := [1000, 10, 10, 10, 10, 10, 10, 10, 10, 10]

/-- Attached strategy over c8SizeList with minBufferPx 100, maxBufferPx 200. -/
def c8Strategy : AdaptiveHeightStrategy Int :=
  { itemSizeFn := fun x => x, items := c8SizeList, minBufferPx := 100, maxBufferPx := 200,
    attached := true, streamClosed := false, lastEmitted := none }

/-- Viewport snapshot for claim C8: scroll offset 450, viewport 500,
ten items, rendered range {0, 2}. -/
def c8View : ViewportRead :=
  { scrollOffset := 450, viewportSize := 500, dataLength := 10,
    renderedRange := { start := 0, endIdx := 2 } }

/-- The range the scenario recomputation commits from scenarioView. -/
def scenarioRange : ListRange :=
  computeNewRange scenarioStrategy.itemSizeFn scenarioStrategy.items
    scenarioStrategy.minBufferPx scenarioStrategy.maxBufferPx scenarioView

/-- Scenario snapshot after the viewport reflects the first committed
range. -/
def scenarioView2 : ViewportRead :=
  { scenarioView with renderedRange := scenarioRange }

/-- Items for the claim C1 witness. -/
def c1Items : List Int := [30, 30, 30]

/-- Viewport snapshot for the claim C1 witness. -/
def c1View : ViewportRead :=
  { scrollOffset := 40, viewportSize := 100, dataLength := 3,
    renderedRange := { start := 1, endIdx := 2 } }

/-! Helper lemmas shared by the claim theorems. -/

/-- A fold whose step function fixes the initial state leaves it unchanged. -/
theorem foldl_fix {g : β → α → β} {b : β} (h : ∀ a, g b a = b) :
    ∀ l : List α, l.foldl g b = b
  | [] => rfl
  | x :: xs => by rw [List.foldl_cons, h x]; exact foldl_fix h xs

/-- The reduce inside _getItemSize, started from any accumulator. -/
theorem _getItemSize_foldl (f : α → Int) :
    ∀ (l : List α) (a : Int),
      l.foldl (fun acc curr => f curr + acc) a = (l.map f).sum + a
  | [], a => by simp
  | x :: xs, a => by
    rw [List.foldl_cons, _getItemSize_foldl f xs (f x + a)]
    simp only [List.map_cons, List.sum_cons]
    omega

/-- _getItemSize computes the sum of the sizes of the items. -/
theorem _getItemSize_eq_sum (f : α → Int) (l : List α) :
    _getItemSize f l = (l.map f).sum := by
  unfold _getItemSize
  rw [_getItemSize_foldl]
  omega

/-- The fold inside _getFirstVisibleIndex counts exactly what the
reference walk counts, from any starting accumulator and counter. -/
theorem gfvi_foldl (f : α → Int) (off : Int) :
    ∀ (l : List α) (acc : Int) (ind : Nat),
      (l.foldl (fun s curr => if s.1 > off then s else (s.1 + f curr, s.2 + 1))
        ((acc, ind) : Int × Nat)).2 = ind + referenceWalk f off acc l
  | [], acc, ind => by simp [referenceWalk]
  | x :: xs, acc, ind => by
    rw [List.foldl_cons]
    by_cases h : acc > off
    · have hstep :
          (if ((acc, ind) : Int × Nat).1 > off then ((acc, ind) : Int × Nat)
            else (((acc, ind) : Int × Nat).1 + f x, ((acc, ind) : Int × Nat).2 + 1))
          = ((acc, ind) : Int × Nat) := by simp [h]
      rw [hstep, foldl_fix (fun a => by simp [h]) xs]
      simp [referenceWalk, h]
    · have hstep :
          (if ((acc, ind) : Int × Nat).1 > off then ((acc, ind) : Int × Nat)
            else (((acc, ind) : Int × Nat).1 + f x, ((acc, ind) : Int × Nat).2 + 1))
          = ((acc + f x, ind + 1) : Int × Nat) := by simp [h]
      rw [hstep, gfvi_foldl f off xs (acc + f x) (ind + 1)]
      simp only [referenceWalk, if_neg h]
      omega

/-- _getFirstVisibleIndex equals the reference walk of the spec. -/
theorem gfvi_eq_referenceWalk (f : α → Int) (items : List α) (off : Int) :
    _getFirstVisibleIndex f items off = referenceWalk f off 0 items := by
  unfold _getFirstVisibleIndex
  rw [gfvi_foldl]
  omega

/-- The reference walk consumes nothing once the accumulator exceeds the
offset. -/
theorem referenceWalk_stop (f : α → Int) {off acc : Int} (h : off < acc) :
    ∀ l : List α, referenceWalk f off acc l = 0
  | [] => rfl
  | x :: xs => by simp [referenceWalk, h]

/-- The reference walk never counts more items than the list holds. -/
theorem referenceWalk_le_length (f : α → Int) (off : Int) :
    ∀ (l : List α) (acc : Int), referenceWalk f off acc l ≤ l.length
  | [], _ => Nat.le_refl 0
  | x :: xs, acc => by
    by_cases h : acc > off
    · simp [referenceWalk, h]
    · simp only [referenceWalk, if_neg h, List.length_cons]
      exact Nat.succ_le_succ (referenceWalk_le_length f off xs (acc + f x))

/-- Sums of non-negative sizes are non-negative. -/
theorem sum_map_nonneg (f : α → Int) :
    ∀ l : List α, (∀ x ∈ l, 0 ≤ f x) → 0 ≤ (l.map f).sum
  | [], _ => le_refl 0
  | x :: xs, h => by
    have h1 := sum_map_nonneg f xs (fun y hy => h y (List.mem_cons_of_mem x hy))
    have h2 := h x (List.mem_cons_self x xs)
    simp only [List.map_cons, List.sum_cons]
    omega

/-- With non-negative sizes, once the offset is at least the total size
the reference walk consumes every item. -/
theorem referenceWalk_full (f : α → Int) (off : Int) :
    ∀ (l : List α) (acc : Int), (∀ x ∈ l, 0 ≤ f x) →
      acc + (l.map f).sum ≤ off → referenceWalk f off acc l = l.length
  | [], _, _, _ => rfl
  | x :: xs, acc, hpos, hle => by
    have hx : 0 ≤ f x := hpos x (List.mem_cons_self x xs)
    have hxs : 0 ≤ (xs.map f).sum :=
      sum_map_nonneg f xs (fun y hy => hpos y (List.mem_cons_of_mem x hy))
    have hsum : acc + (f x + (xs.map f).sum) ≤ off := by
      simpa only [List.map_cons, List.sum_cons] using hle
    have hacc : ¬ acc > off := by omega
    simp only [referenceWalk, if_neg hacc, List.length_cons]
    rw [referenceWalk_full f off xs (acc + f x)
      (fun y hy => hpos y (List.mem_cons_of_mem x hy)) (by omega)]

/-- Slice from zero with a non-negative end index is a take. -/
theorem slice0_of_nonneg (l : List α) {k : Int} (h : 0 ≤ k) :
    slice0 l k = l.take k.toNat := by
  unfold slice0
  rw [if_neg (by omega)]

/-- The first component of emitIndex keeps the size function. -/
@[simp] theorem emitIndex_fst_itemSizeFn (s : AdaptiveHeightStrategy α) (n : Int) :
    (emitIndex s n).1.itemSizeFn = s.itemSizeFn := by
  unfold emitIndex; split_ifs <;> rfl

/-- The first component of emitIndex keeps the items. -/
@[simp] theorem emitIndex_fst_items (s : AdaptiveHeightStrategy α) (n : Int) :
    (emitIndex s n).1.items = s.items := by
  unfold emitIndex; split_ifs <;> rfl

/-- The first component of emitIndex keeps minBufferPx. -/
@[simp] theorem emitIndex_fst_minBufferPx (s : AdaptiveHeightStrategy α) (n : Int) :
    (emitIndex s n).1.minBufferPx = s.minBufferPx := by
  unfold emitIndex; split_ifs <;> rfl

/-- The first component of emitIndex keeps maxBufferPx. -/
@[simp] theorem emitIndex_fst_maxBufferPx (s : AdaptiveHeightStrategy α) (n : Int) :
    (emitIndex s n).1.maxBufferPx = s.maxBufferPx := by
  unfold emitIndex; split_ifs <;> rfl

/-- The first component of emitIndex keeps the attachment state. -/
@[simp] theorem emitIndex_fst_attached (s : AdaptiveHeightStrategy α) (n : Int) :
    (emitIndex s n).1.attached = s.attached := by
  unfold emitIndex; split_ifs <;> rfl

/-- The first component of emitIndex keeps the stream state. -/
@[simp] theorem emitIndex_fst_streamClosed (s : AdaptiveHeightStrategy α) (n : Int) :
    (emitIndex s n).1.streamClosed = s.streamClosed := by
  unfold emitIndex; split_ifs <;> rfl

/-- Pushing the same value again right after emitIndex delivers nothing:
the deduplicated stream suppresses consecutive duplicates. -/
theorem emitIndex_repeat_snd (s : AdaptiveHeightStrategy α) (n : Int) :
    (emitIndex (emitIndex s n).1 n).2 = [] := by
  unfold emitIndex
  by_cases h1 : s.streamClosed <;> by_cases h2 : s.lastEmitted = some n <;>
    simp [h1, h2]

/-- When no expansion branch fires, the range update returns the prior
rendered range unchanged. -/
theorem computeNewRange_of_noChange (f : α → Int) (items : List α)
    (minBufferPx maxBufferPx : Int) (v : ViewportRead)
    (h : noChangeBranch f items minBufferPx maxBufferPx v) :
    computeNewRange f items minBufferPx maxBufferPx v = v.renderedRange := by
  obtain ⟨h1, h2⟩ := h
  simp only [computeNewRange]
  rw [if_neg h1]
  by_cases hb : _getItemSize f (slice0 items v.renderedRange.endIdx) -
      (v.scrollOffset + v.viewportSize) < minBufferPx ∧
      v.renderedRange.endIdx ≠ v.dataLength
  · rw [if_pos hb, if_neg (h2 hb)]
  · rw [if_neg hb]

/-! Claim theorems. -/

/-- Claim C1: for every attached recomputation pass over a well-formed
prior rendered range, the rendered-range update follows the two-branch
algorithm exactly: start-side expansion when the start buffer is below
minBufferPx and start is nonzero, otherwise end-side expansion when the
end buffer is below minBufferPx, the end is not at dataLength and the
computed expansion count is positive, otherwise the range is unchanged. -/
theorem computeNewRange_eq_specNewRange (f : α → Int) (items : List α)
    (minBufferPx maxBufferPx : Int) (v : ViewportRead)
    (hs : 0 ≤ v.renderedRange.start) (he : 0 ≤ v.renderedRange.endIdx) :
    computeNewRange f items minBufferPx maxBufferPx v =
      specNewRange f items minBufferPx maxBufferPx v := by
  simp only [computeNewRange, specNewRange, slice0_of_nonneg items hs,
    slice0_of_nonneg items he, _getItemSize_eq_sum, gfvi_eq_referenceWalk,
    cumulativeSize]
  split_ifs <;> first | rfl | tauto

/-- Witness for claim C1 at a concrete input. -/
theorem computeNewRange_eq_specNewRange_witness :
    0 ≤ c1View.renderedRange.start ∧ 0 ≤ c1View.renderedRange.endIdx ∧
    computeNewRange (fun x => x) c1Items 50 120 c1View =
      specNewRange (fun x => x) c1Items 50 120 c1View :=
  ⟨by decide, by decide,
    computeNewRange_eq_specNewRange (fun x => x) c1Items 50 120 c1View
      (by decide) (by decide)⟩

/-- Claim C2 exhibit: with non-negative sizes, a valid configuration
(minBufferPx 100, maxBufferPx 200) and a prior rendered range {5, 6}
satisfying the invariant for dataLength 10, the recomputation at scroll
offset 900 commits the range {4, 2} through setRenderedRange, violating
start less-or-equal end. -/
theorem renderedRange_invariant_violation :
    (onContentScrolled c2Strategy c2View).cmds.head? =
      some (Cmd.setRenderedRange { start := 4, endIdx := 2 }) ∧
    ¬((4 : Int) ≤ 2) ∧
    (0 ≤ c2View.renderedRange.start ∧
      c2View.renderedRange.start ≤ c2View.renderedRange.endIdx ∧
      c2View.renderedRange.endIdx ≤ c2View.dataLength) := by
  refine ⟨by decide, by decide, by decide⟩

/-- Claim C3 counterexample: for 50 items of 20 pixels each,
firstIndexAtOrBeyond at offset 0 returns 1, not 0, although 0 is at or
below 0. -/
theorem firstVisibleIndex_zero_offset_counterexample :
    (0 : Int) ≤ 0 ∧
    _getFirstVisibleIndex uniformSizeFn uniformItems 0 = 1 := by
  refine ⟨by decide, by decide⟩

/-- Claim C3 amended: for every item collection and every strictly
negative offset, firstIndexAtOrBeyond returns 0; in the 50-items-of-20px
scenario with viewport 500, minBuffer 100 and maxBuffer 200, the
recomputation at scroll offset 0 commits start 0 (with end 36) and
content offset 0, and publishes first-visible-index 1. -/
theorem firstVisibleIndex_neg_offset_and_scenario (f : α → Int) (items : List α)
    (off : Int) (hoff : off < 0) :
    _getFirstVisibleIndex f items off = 0 ∧
    (onContentScrolled scenarioStrategy scenarioView).cmds =
      [Cmd.setRenderedRange { start := 0, endIdx := 36 },
        Cmd.setRenderedContentOffset 0] ∧
    (onContentScrolled scenarioStrategy scenarioView).delivered = [1] := by
  refine ⟨?_, by decide, by decide⟩
  rw [gfvi_eq_referenceWalk]
  exact referenceWalk_stop f hoff items

/-- Witness for claim C3 amended at a concrete negative offset. -/
theorem firstVisibleIndex_neg_offset_and_scenario_witness :
    (-7 : Int) < 0 ∧
    _getFirstVisibleIndex uniformSizeFn uniformItems (-7) = 0 :=
  ⟨by decide,
    (firstVisibleIndex_neg_offset_and_scenario uniformSizeFn uniformItems (-7)
      (by decide)).1⟩

/-- Claim C4: with a non-negative size function, firstIndexAtOrBeyond
equals the reference walk that accumulates while the accumulator is at
most the offset and stops once it exceeds it; the empty collection
yields 0 for every offset, and any offset at or beyond the total size
yields the collection length. -/
theorem firstVisibleIndex_matches_reference_walk (f : α → Int) (items : List α)
    (off : Int) (hpos : ∀ x ∈ items, 0 ≤ f x) :
    _getFirstVisibleIndex f items off = referenceWalk f off 0 items ∧
    _getFirstVisibleIndex f ([] : List α) off = 0 ∧
    (_getItemSize f items ≤ off →
      _getFirstVisibleIndex f items off = items.length) := by
  refine ⟨gfvi_eq_referenceWalk f items off, rfl, fun h => ?_⟩
  rw [gfvi_eq_referenceWalk]
  rw [_getItemSize_eq_sum] at h
  exact referenceWalk_full f off items 0 hpos (by omega)

/-- Witness for claim C4 at a concrete input. -/
theorem firstVisibleIndex_matches_reference_walk_witness :
    _getFirstVisibleIndex (fun x => x) [2, 3] 10 = referenceWalk (fun x => x) 10 0 [2, 3] ∧
    _getFirstVisibleIndex (fun x => x) ([] : List Int) 10 = 0 ∧
    (_getItemSize (fun x => x) [2, 3] ≤ 10 →
      _getFirstVisibleIndex (fun x => x) [2, 3] 10 = ([2, 3] : List Int).length) :=
  firstVisibleIndex_matches_reference_walk (fun x => x) [2, 3] 10 (by decide)

/-- Claim C10: for every item collection, every size function and every
offset, including negative offsets and offsets beyond the total size,
firstIndexAtOrBeyond returns a count between 0 and the collection
length. -/
theorem firstVisibleIndex_within_bounds (f : α → Int) (items : List α) (off : Int) :
    _getFirstVisibleIndex f items off ≤ items.length ∧
    0 ≤ _getFirstVisibleIndex f items off := by
  refine ⟨?_, Nat.zero_le _⟩
  rw [gfvi_eq_referenceWalk]
  exact referenceWalk_le_length f off items 0

/-- Claim C5: updateItemAndBufferSize with maxBufferPx below minBufferPx
signals the configuration error and leaves the whole previous state
unchanged with no viewport call and no emission; otherwise it replaces
the size function, items and both thresholds atomically and, when
attached, first commits the new total content size (the sum of the new
sizes over the new items) and then recomputes the rendered range. -/
theorem updateItemAndBufferSize_all_or_nothing (s : AdaptiveHeightStrategy α)
    (f : α → Int) (items : List α) (minBufferPx maxBufferPx : Int) (v : ViewportRead) :
    (maxBufferPx < minBufferPx →
      (updateItemAndBufferSize s f items minBufferPx maxBufferPx v).2 =
        some ConfigError.maxBufferLessThanMinBuffer ∧
      (updateItemAndBufferSize s f items minBufferPx maxBufferPx v).1.strategy = s ∧
      (updateItemAndBufferSize s f items minBufferPx maxBufferPx v).1.cmds = [] ∧
      (updateItemAndBufferSize s f items minBufferPx maxBufferPx v).1.delivered = []) ∧
    (minBufferPx ≤ maxBufferPx →
      (updateItemAndBufferSize s f items minBufferPx maxBufferPx v).2 = none ∧
      (updateItemAndBufferSize s f items minBufferPx maxBufferPx v).1.strategy.itemSizeFn = f ∧
      (updateItemAndBufferSize s f items minBufferPx maxBufferPx v).1.strategy.items = items ∧
      (updateItemAndBufferSize s f items minBufferPx maxBufferPx v).1.strategy.minBufferPx
        = minBufferPx ∧
      (updateItemAndBufferSize s f items minBufferPx maxBufferPx v).1.strategy.maxBufferPx
        = maxBufferPx ∧
      (s.attached = true →
        (updateItemAndBufferSize s f items minBufferPx maxBufferPx v).1.cmds =
          Cmd.setTotalContentSize ((items.map f).sum) ::
            (_updateRenderedRange
              { s with itemSizeFn := f, items := items, minBufferPx := minBufferPx,
                       maxBufferPx := maxBufferPx } v).cmds)) := by
  constructor
  · intro hlt
    simp [updateItemAndBufferSize, hlt]
  · intro hle
    have hnlt : ¬ maxBufferPx < minBufferPx := by omega
    refine ⟨by simp [updateItemAndBufferSize, hnlt], ?_, ?_, ?_, ?_, ?_⟩ <;>
      simp only [updateItemAndBufferSize, if_neg hnlt, StepOut.andThen,
        _updateTotalContentSize, _updateRenderedRange]
    · split_ifs <;> simp
    · split_ifs <;> simp
    · split_ifs <;> simp
    · split_ifs <;> simp
    · intro hatt
      simp [hatt, _getItemSize_eq_sum]

/-- Witness for claim C5: the error case at maxBufferPx 50, minBufferPx
100, and the success case at maxBufferPx 200, minBufferPx 100. -/
theorem updateItemAndBufferSize_all_or_nothing_witness :
    ((50 : Int) < 100 ∧
      (updateItemAndBufferSize scenarioStrategy uniformSizeFn uniformItems 100 50
        scenarioView).2 = some ConfigError.maxBufferLessThanMinBuffer ∧
      (updateItemAndBufferSize scenarioStrategy uniformSizeFn uniformItems 100 50
        scenarioView).1.strategy = scenarioStrategy) ∧
    ((100 : Int) ≤ 200 ∧
      (updateItemAndBufferSize scenarioStrategy uniformSizeFn uniformItems 100 200
        scenarioView).2 = none) :=
  ⟨⟨by decide,
    ((updateItemAndBufferSize_all_or_nothing scenarioStrategy uniformSizeFn uniformItems
      100 50 scenarioView).1 (by decide)).1,
    ((updateItemAndBufferSize_all_or_nothing scenarioStrategy uniformSizeFn uniformItems
      100 50 scenarioView).1 (by decide)).2.1⟩,
   ⟨by decide,
    ((updateItemAndBufferSize_all_or_nothing scenarioStrategy uniformSizeFn uniformItems
      100 200 scenarioView).2 (by decide)).1⟩⟩

/-- Claim C6 counterexample: the constructor performs no validation, so
with minBufferPx 100 and maxBufferPx 50 it produces a strategy holding
the invalid thresholds instead of signalling a configuration error. -/
theorem construct_no_validation_counterexample :
    (construct (fun _ => (20 : Int)) ([] : List Unit) 100 50).minBufferPx = 100 ∧
    (construct (fun _ => (20 : Int)) ([] : List Unit) 100 50).maxBufferPx = 50 ∧
    (50 : Int) < 100 :=
  ⟨rfl, rfl, by decide⟩

/-- Claim C6 amended: the constructor stores the four configuration
values as given, without validation, even when maxBufferPx is below
minBufferPx; only updateItemAndBufferSize rejects such thresholds. -/
theorem construct_stores_thresholds (f : α → Int) (items : List α)
    (minBufferPx maxBufferPx : Int) (_h : maxBufferPx < minBufferPx) :
    (construct f items minBufferPx maxBufferPx).itemSizeFn = f ∧
    (construct f items minBufferPx maxBufferPx).items = items ∧
    (construct f items minBufferPx maxBufferPx).minBufferPx = minBufferPx ∧
    (construct f items minBufferPx maxBufferPx).maxBufferPx = maxBufferPx ∧
    (construct f items minBufferPx maxBufferPx).attached = false :=
  ⟨rfl, rfl, rfl, rfl, rfl⟩

/-- Witness for claim C6 amended at concrete invalid thresholds. -/
theorem construct_stores_thresholds_witness :
    (50 : Int) < 100 ∧
    (construct (fun _ => (10 : Int)) ([] : List Int) 100 50).maxBufferPx = 50 :=
  ⟨by decide,
    (construct_stores_thresholds (fun _ => (10 : Int)) ([] : List Int) 100 50
      (by decide)).2.2.2.1⟩

/-- Claim C7: after detach the output stream is closed, every subsequent
onContentScrolled, onDataLengthChanged, direct recomputation or
scrollToIndex performs no viewport call and delivers no further
first-visible-index value, and detach is idempotent. -/
theorem detach_stops_all_output (s : AdaptiveHeightStrategy α) (v : ViewportRead)
    (idx : Int) (b : ScrollBehavior) :
    (detach s).streamClosed = true ∧
    (detach s).attached = false ∧
    (onContentScrolled (detach s) v).cmds = [] ∧
    (onContentScrolled (detach s) v).delivered = [] ∧
    (onDataLengthChanged (detach s) v).cmds = [] ∧
    (onDataLengthChanged (detach s) v).delivered = [] ∧
    (_updateRenderedRange (detach s) v).cmds = [] ∧
    (_updateRenderedRange (detach s) v).delivered = [] ∧
    (scrollToIndex (detach s) idx b).cmds = [] ∧
    (scrollToIndex (detach s) idx b).delivered = [] ∧
    detach (detach s) = detach s :=
  ⟨rfl, rfl, rfl, rfl, rfl, rfl, rfl, rfl, rfl, rfl, rfl⟩

/-- Claim C8 counterexample: over one tall item followed by short ones,
calling onContentScrolled twice at the same scroll offset, with the
viewport reflecting the first committed range, commits {0, 3} first and
then the different range {0, 4}. -/
theorem onContentScrolled_not_idempotent :
    (onContentScrolled c8Strategy c8View).cmds.head? =
      some (Cmd.setRenderedRange { start := 0, endIdx := 3 }) ∧
    (onContentScrolled (onContentScrolled c8Strategy c8View).strategy
        { c8View with renderedRange := { start := 0, endIdx := 3 } }).cmds.head? =
      some (Cmd.setRenderedRange { start := 0, endIdx := 4 }) ∧
    ({ start := 0, endIdx := 4 } : ListRange) ≠ { start := 0, endIdx := 3 } := by
  refine ⟨by decide, by decide, by decide⟩

/-- Claim C8 amended: a second onContentScrolled at an unchanged scroll
offset never delivers a duplicate first-visible-index value, and it
commits the same range and viewport calls as the first exactly when the
range committed by the first call triggers no further expansion branch;
with heterogeneous sizes the second call may otherwise commit a larger
range. -/
theorem onContentScrolled_repeat (s : AdaptiveHeightStrategy α) (v : ViewportRead)
    (hatt : s.attached = true) :
    (onContentScrolled (onContentScrolled s v).strategy
      { v with renderedRange :=
          computeNewRange s.itemSizeFn s.items s.minBufferPx s.maxBufferPx v }).delivered
      = [] ∧
    (noChangeBranch s.itemSizeFn s.items s.minBufferPx s.maxBufferPx
        { v with renderedRange :=
            computeNewRange s.itemSizeFn s.items s.minBufferPx s.maxBufferPx v } →
      (onContentScrolled (onContentScrolled s v).strategy
        { v with renderedRange :=
            computeNewRange s.itemSizeFn s.items s.minBufferPx s.maxBufferPx v }).cmds
        = (onContentScrolled s v).cmds) := by
  have hstr : (onContentScrolled s v).strategy =
      (emitIndex s (_getFirstVisibleIndex s.itemSizeFn s.items v.scrollOffset : Int)).1 := by
    simp [onContentScrolled, _updateRenderedRange, hatt]
  constructor
  · rw [hstr]
    simp only [onContentScrolled, _updateRenderedRange, emitIndex_fst_attached, hatt,
      if_pos, emitIndex_fst_itemSizeFn, emitIndex_fst_items]
    exact emitIndex_repeat_snd s _
  · intro hnc
    have hfix := computeNewRange_of_noChange s.itemSizeFn s.items s.minBufferPx
      s.maxBufferPx _ hnc
    rw [hstr]
    simp only [onContentScrolled, _updateRenderedRange, emitIndex_fst_attached, hatt,
      if_pos, emitIndex_fst_itemSizeFn, emitIndex_fst_items, emitIndex_fst_minBufferPx,
      emitIndex_fst_maxBufferPx]
    rw [hfix]

/-- Witness for claim C8 amended: in the uniform 50-items scenario, the
range committed by the first call is a fixed point, so the second call
repeats the same viewport calls and delivers nothing new. -/
theorem onContentScrolled_repeat_witness :
    (onContentScrolled (onContentScrolled scenarioStrategy scenarioView).strategy
      scenarioView2).delivered = [] ∧
    (onContentScrolled (onContentScrolled scenarioStrategy scenarioView).strategy
      scenarioView2).cmds = (onContentScrolled scenarioStrategy scenarioView).cmds :=
  ⟨(onContentScrolled_repeat scenarioStrategy scenarioView rfl).1,
   (onContentScrolled_repeat scenarioStrategy scenarioView rfl).2 (by decide)⟩

/-- Claim C9: while attached, onContentScrolled never issues
setTotalContentSize, whereas onDataLengthChanged first commits the total
content size, the sum of the size function over all items, and then
performs exactly the rendered-range recomputation of onContentScrolled. -/
theorem scrolled_vs_dataLength_effects (s : AdaptiveHeightStrategy α)
    (v : ViewportRead) (hatt : s.attached = true) :
    (∀ px : Int, Cmd.setTotalContentSize px ∉ (onContentScrolled s v).cmds) ∧
    (onDataLengthChanged s v).cmds =
      Cmd.setTotalContentSize ((s.items.map s.itemSizeFn).sum) ::
        (onContentScrolled s v).cmds ∧
    (onDataLengthChanged s v).delivered = (onContentScrolled s v).delivered := by
  refine ⟨?_, ?_, ?_⟩ <;>
    simp [onContentScrolled, onDataLengthChanged, _updateRenderedRange,
      _updateTotalContentSize, StepOut.andThen, hatt, _getItemSize_eq_sum]

/-- Witness for claim C9 in the uniform scenario. -/
theorem scrolled_vs_dataLength_effects_witness :
    Cmd.setTotalContentSize 1000 ∉ (onContentScrolled scenarioStrategy scenarioView).cmds ∧
    (onDataLengthChanged scenarioStrategy scenarioView).cmds =
      Cmd.setTotalContentSize
          ((scenarioStrategy.items.map scenarioStrategy.itemSizeFn).sum) ::
        (onContentScrolled scenarioStrategy scenarioView).cmds :=
  ⟨(scrolled_vs_dataLength_effects scenarioStrategy scenarioView rfl).1 1000,
   (scrolled_vs_dataLength_effects scenarioStrategy scenarioView rfl).2.1⟩

end CustomScroll
